import Mathlib

/-!
Shallow embedding of the GLiNER NER service wrapper
(`src/services/gliner/model.py` and `src/services/gliner/main.py`).

The wrapper `GLiNERModel` holds a name, an optional reference to the
underlying model object and a readiness flag.  `load` constructs the
underlying model lazily; `extract_entities` loads if needed and delegates
to the model's `predict_entities`; `is_loaded` reads the flag and
`model_info` returns a metadata record.  External effects (the outcome of
`GLiNER.from_pretrained` and of `predict_entities`) are passed in
explicitly as values of environment types, and each state-changing
operation additionally reports how many times it completed a construction
of the underlying resource, so that side-effect counting claims can be
stated.
-/

namespace PedanticRaven

/-- One entity as returned by the external `predict_entities` call: the five
fields the wrapper reads, plus any further keys the external dictionary may
carry (which the wrapper must drop). -/
structure RawEntity where
  text : String
  label : String
  start : Nat
  «end» : Nat
  score : Rat
  extraFields : List (String × String)
deriving Repr, DecidableEq

/-- The underlying GLiNER model object.  The only part of it the wrapper
uses is its `predict_entities` method; a raised exception is represented as
`Except.error` with the exception's string. -/
structure Model where
  predict_entities : String → List String → Rat → Except String (List RawEntity)

/-- State of the `GLiNERModel` wrapper: `model_name`, the `_model`
reference (absent until loaded) and the `_loaded` readiness flag
(`model.py`, lines 15-18). -/
structure GLiNERModel where
  model_name : String
  _model : Option Model
  _loaded : Bool

/-- `GLiNERModel.__init__`: fresh handle with the given name (default
"fastino/gliner2-large-v1"), no model reference, readiness flag false. -/
def GLiNERModel.init (model_name : String := "fastino/gliner2-large-v1") :
    GLiNERModel :=
  { model_name := model_name, _model := none, _loaded := false }

/-- Outcome of the external call `GLiNER.from_pretrained(model_name)`:
either the import of `gliner2` fails, or loading raises some other
exception, or a model object is produced. -/
inductive LoadOutcome where
  | importError (msg : String)
  | loadError (msg : String)
  | ok (m : Model)

/-- Message of the `RuntimeError` raised by `load` when importing the
gliner2 package fails (`model.py`, line 37). -/
def importErrorMessage : String :=
  "gliner2 package not installed. Run: pip install gliner2"

/-- Message of the `RuntimeError` raised by `load` when model loading
raises exception `e` (`model.py`, line 40). -/
def loadErrorMessage (e : String) : String :=
  "Failed to load GLiNER2 model: " ++ e

/-- Result of one `load` call: the raised exception (if any), the state of
the handle afterwards, and how many constructions of the underlying
resource this call completed. -/
structure LoadResult where
  result : Except String Unit
  state : GLiNERModel
  constructions : Nat

/-- `GLiNERModel.load` (`model.py`, lines 20-40): return immediately when
already loaded; otherwise attempt `GLiNER.from_pretrained`, on success
store the model and set `_loaded`, on failure raise a `RuntimeError` and
leave every attribute untouched. -/
def GLiNERModel.load (env : LoadOutcome) (s : GLiNERModel) : LoadResult :=
  if s._loaded then
    ⟨.ok (), s, 0⟩
  else
    match env with
    | .ok m => ⟨.ok (), { s with _model := some m, _loaded := true }, 1⟩
    | .importError _ => ⟨.error importErrorMessage, s, 0⟩
    | .loadError e => ⟨.error (loadErrorMessage e), s, 0⟩

/-- An entity in the wrapper's standard format: exactly the fields
`text`, `label`, `start`, `end`, `score` (`model.py`, lines 69-75). -/
structure Entity where
  text : String
  label : String
  start : Nat
  «end» : Nat
  score : Rat
deriving Repr, DecidableEq

/-- The conversion performed for each raw entity (`model.py`, lines
68-75): keep exactly `text`, `label`, `start`, `end`, `score`. -/
def convertEntity (e : RawEntity) : Entity :=
  ⟨e.text, e.label, e.start, e.«end», e.score⟩

/-- Result of one `extract_entities` call on the wrapper. -/
structure ExtractResult where
  result : Except String (List Entity)
  state : GLiNERModel
  constructions : Nat

/-- The guarded load at the start of `extract_entities` (`model.py`, lines
59-60): `if not self._loaded: self.load()`. -/
def afterLoad (env : LoadOutcome) (s : GLiNERModel) : LoadResult :=
  if s._loaded then ⟨.ok (), s, 0⟩ else GLiNERModel.load env s

/-- `GLiNERModel.extract_entities` (`model.py`, lines 42-82): load first
when not yet loaded (an exception from `load` propagates), then call the
stored model's `predict_entities` and convert each returned entity to the
standard format; an exception from prediction is re-raised unchanged. -/
def GLiNERModel.extract_entities (env : LoadOutcome) (text : String)
    (entity_types : List String) (threshold : Rat) (s : GLiNERModel) :
    ExtractResult :=
  match afterLoad env s with
  | ⟨.error e, st, c⟩ => ⟨.error e, st, c⟩
  | ⟨.ok (), st, c⟩ =>
    match st._model with
    | none =>
      ⟨.error "NoneType object has no attribute predict_entities", st, c⟩
    | some m =>
      match m.predict_entities text entity_types threshold with
      | .error e => ⟨.error e, st, c⟩
      | .ok raws => ⟨.ok (raws.map convertEntity), st, c⟩

/-- `GLiNERModel.is_loaded` (`model.py`, lines 84-86): return the
readiness flag. -/
def GLiNERModel.is_loaded (s : GLiNERModel) : Bool :=
  s._loaded

/-- The dictionary returned by `model_info` (`model.py`, lines 88-96). -/
structure ModelInfo where
  model_name : String
  loaded : Bool
  model_type : String
  parameters : String
  license : String
deriving Repr, DecidableEq

/-- `GLiNERModel.model_info` (`model.py`, lines 88-96). -/
def GLiNERModel.model_info (s : GLiNERModel) : ModelInfo :=
  { model_name := s.model_name
    loaded := s._loaded
    model_type := "GLiNER2"
    parameters := "340M"
    license := "Apache 2.0" }

/-- One operation on the handle, with the environment it consumes. -/
inductive Op where
  | load (env : LoadOutcome)
  | extract (env : LoadOutcome) (text : String) (entity_types : List String)
      (threshold : Rat)
  | isLoaded
  | modelInfo

/-- Effect of one operation on the handle state, paired with the number of
constructions of the underlying resource it completed.  `is_loaded` and
`model_info` only read attributes, so they leave the state unchanged and
construct nothing. -/
def applyOp (op : Op) (s : GLiNERModel) : GLiNERModel × Nat :=
  match op with
  | .load env => ((GLiNERModel.load env s).state, (GLiNERModel.load env s).constructions)
  | .extract env t tys th =>
      ((GLiNERModel.extract_entities env t tys th s).state,
       (GLiNERModel.extract_entities env t tys th s).constructions)
  | .isLoaded => (s, 0)
  | .modelInfo => (s, 0)

/-- Run a sequence of operations from a state. -/
def runOps : List Op → GLiNERModel → GLiNERModel
  | [], s => s
  | op :: rest, s => runOps rest (applyOp op s).1

/-- Run a sequence of `load` calls, returning the final state and the total
number of completed constructions of the underlying resource. -/
def runLoads : List LoadOutcome → GLiNERModel → GLiNERModel × Nat
  | [], s => (s, 0)
  | env :: rest, s =>
    let r := GLiNERModel.load env s
    let after := runLoads rest r.state
    (after.1, r.constructions + after.2)

/-- Whether an operation carries an environment that could complete an
initialization (a successful `from_pretrained` outcome). -/
def opCanInit : Op → Bool
  | .load (.ok _) => true
  | .extract (.ok _) _ _ _ => true
  | _ => false

/-- States reachable from a freshly constructed handle by any sequence of
wrapper operations. -/
inductive Reachable : GLiNERModel → Prop where
  | init (name : String) : Reachable (GLiNERModel.init name)
  | step (s : GLiNERModel) (op : Op) : Reachable s → Reachable (applyOp op s).1

/-- The request body of `POST /extract` (`main.py`, lines 26-39); the
pydantic field constraints are `min_length=1` on `text`, `min_items=1` on
`entity_types`, and `0.0 <= threshold <= 1.0`. -/
structure ExtractRequest where
  text : String
  entity_types : List String
  threshold : Rat
deriving Repr, DecidableEq

/-- Default value of `threshold` (`main.py`, line 35). -/
def thresholdDefault : Rat := 3 / 10

/-- Pydantic validation of `ExtractRequest` (`main.py`, lines 26-39):
`text` at least one character, `entity_types` at least one item,
`threshold` within `[0, 1]`. -/
def validExtractRequest (r : ExtractRequest) : Bool :=
  decide (1 ≤ r.text.length) && decide (1 ≤ r.entity_types.length) &&
    decide (0 ≤ r.threshold) && decide (r.threshold ≤ 1)

/-- An HTTP error response: status code and detail message. -/
structure HTTPError where
  status_code : Nat
  detail : String
deriving Repr, DecidableEq

/-- FastAPI rejects a request body violating the pydantic field
constraints with HTTP 422 before the handler runs; a conforming body is
passed through. -/
def validateExtractRequest (r : ExtractRequest) : Except HTTPError ExtractRequest :=
  if validExtractRequest r then .ok r else .error ⟨422, "ValidationError"⟩

/-- The response body of a successful `POST /extract` (`main.py`, lines
51-55 and 163-167). -/
structure ExtractResponse where
  entities : List Entity
  entity_count : Nat
  text_length : Nat
deriving Repr, DecidableEq

/-- The `POST /extract` handler (`main.py`, lines 139-171): call
`extract_entities` on the shared handle; on success answer with the
entities, their count and the text length; on any exception answer
HTTP 500 with detail `"Extraction failed: " ++ str(e)`. -/
def extractEndpoint (env : LoadOutcome) (req : ExtractRequest)
    (s : GLiNERModel) : Except HTTPError ExtractResponse × GLiNERModel :=
  match GLiNERModel.extract_entities env req.text req.entity_types
      req.threshold s with
  | ⟨.ok entities, st, _⟩ =>
    (.ok ⟨entities, entities.length, req.text.length⟩, st)
  | ⟨.error e, st, _⟩ =>
    (.error ⟨500, "Extraction failed: " ++ e⟩, st)

/-- A model whose `predict_entities` always succeeds with no entities; used
to instantiate theorems at concrete inputs. -/
def demoModel : Model := ⟨fun _ _ _ => .ok []⟩

/-- A handle that has already been loaded successfully. -/
def sLoaded : GLiNERModel :=
  { model_name := "m", _model := some demoModel, _loaded := true }

/-- A raw entity carrying an extra field beyond the five standard ones. -/
def demoRaw : RawEntity := ⟨"Acme", "org", 0, 4, 9 / 10, [("ner_tag", "x")]⟩

/-- A model whose `predict_entities` always returns `demoRaw`. -/
def demoPredModel : Model := ⟨fun _ _ _ => .ok [demoRaw]⟩

/-- A loaded handle whose model returns `demoRaw`. -/
def sReady : GLiNERModel :=
  { model_name := "m", _model := some demoPredModel, _loaded := true }

/-- A model whose `predict_entities` always raises. -/
def failModel : Model := ⟨fun _ _ _ => .error "boom"⟩

/-- A loaded handle whose model always raises on prediction. -/
def sFail : GLiNERModel :=
  { model_name := "m", _model := some failModel, _loaded := true }

/-- A concrete extraction request. -/
def reqA : ExtractRequest := ⟨"Acme Corp", ["org"], 3 / 10⟩

/-- A second, different concrete extraction request. -/
def reqB : ExtractRequest := ⟨"ZZZ", ["person"], 1 / 2⟩

theorem load_of_loaded (env : LoadOutcome) (s : GLiNERModel)
    (h : s._loaded = true) : GLiNERModel.load env s = ⟨.ok (), s, 0⟩ := by
  simp [GLiNERModel.load, h]

theorem load_state_model_name (env : LoadOutcome) (s : GLiNERModel) :
    ((GLiNERModel.load env s).state).model_name = s.model_name := by
  unfold GLiNERModel.load
  by_cases h : s._loaded = true
  · simp [h]
  · simp [h]; cases env <;> rfl

theorem load_state_loaded_mono (env : LoadOutcome) (s : GLiNERModel)
    (h : s._loaded = true) : ((GLiNERModel.load env s).state)._loaded = true := by
  rw [load_of_loaded env s h]; exact h

theorem afterLoad_eq (env : LoadOutcome) (s : GLiNERModel) :
    afterLoad env s = GLiNERModel.load env s := by
  unfold afterLoad
  by_cases h : s._loaded = true
  · rw [load_of_loaded env s h]; simp [h]
  · simp [h]

theorem extract_entities_state (env : LoadOutcome) (t : String)
    (tys : List String) (th : Rat) (s : GLiNERModel) :
    (GLiNERModel.extract_entities env t tys th s).state =
      (GLiNERModel.load env s).state ∧
    (GLiNERModel.extract_entities env t tys th s).constructions =
      (GLiNERModel.load env s).constructions := by
  unfold GLiNERModel.extract_entities
  rw [afterLoad_eq]
  rcases hL : GLiNERModel.load env s with ⟨res, st, c⟩
  cases res with
  | error e => simp
  | ok u =>
    cases u
    rcases hm : st._model with _ | m
    · simp [hm]
    · rcases hp : m.predict_entities t tys th with e | raws <;> simp [hm, hp]

theorem applyOp_loaded_mono (op : Op) (s : GLiNERModel)
    (h : s._loaded = true) : ((applyOp op s).1)._loaded = true := by
  cases op with
  | load env => exact load_state_loaded_mono env s h
  | extract env t tys th =>
    show ((GLiNERModel.extract_entities env t tys th s).state)._loaded = true
    rw [(extract_entities_state env t tys th s).1]
    exact load_state_loaded_mono env s h
  | isLoaded => exact h
  | modelInfo => exact h

theorem runOps_loaded_mono (ops : List Op) (s : GLiNERModel)
    (h : s._loaded = true) : (runOps ops s)._loaded = true := by
  induction ops generalizing s with
  | nil => exact h
  | cons op rest ih => exact ih _ (applyOp_loaded_mono op s h)

theorem load_cannot_init (env : LoadOutcome) (s : GLiNERModel)
    (henv : ∀ m, env ≠ .ok m) (h : s._loaded = false) :
    (GLiNERModel.load env s).state = s := by
  unfold GLiNERModel.load
  simp [h]
  cases env with
  | ok m => exact absurd rfl (henv m)
  | importError e => rfl
  | loadError e => rfl

theorem applyOp_cannot_init (op : Op) (s : GLiNERModel)
    (hop : opCanInit op = false) (h : s._loaded = false) :
    ((applyOp op s).1)._loaded = false := by
  cases op with
  | load env =>
    cases env with
    | ok m => simp [opCanInit] at hop
    | importError e =>
      show ((GLiNERModel.load (.importError e) s).state)._loaded = false
      rw [load_cannot_init _ s (by intro m hm; cases hm) h]; exact h
    | loadError e =>
      show ((GLiNERModel.load (.loadError e) s).state)._loaded = false
      rw [load_cannot_init _ s (by intro m hm; cases hm) h]; exact h
  | extract env t tys th =>
    show ((GLiNERModel.extract_entities env t tys th s).state)._loaded = false
    rw [(extract_entities_state env t tys th s).1]
    cases env with
    | ok m => simp [opCanInit] at hop
    | importError e =>
      rw [load_cannot_init _ s (by intro m hm; cases hm) h]; exact h
    | loadError e =>
      rw [load_cannot_init _ s (by intro m hm; cases hm) h]; exact h
  | isLoaded => exact h
  | modelInfo => exact h

theorem runOps_cannot_init (ops : List Op) (s : GLiNERModel)
    (hops : ∀ op ∈ ops, opCanInit op = false) (h : s._loaded = false) :
    (runOps ops s)._loaded = false := by
  induction ops generalizing s with
  | nil => exact h
  | cons op rest ih =>
    exact ih _ (fun o ho => hops o (List.mem_cons_of_mem op ho))
      (applyOp_cannot_init op s (hops op (List.mem_cons_self op rest)) h)

theorem runLoads_of_loaded (envs : List LoadOutcome) (s : GLiNERModel)
    (h : s._loaded = true) : runLoads envs s = (s, 0) := by
  induction envs with
  | nil => rfl
  | cons env rest ih =>
    show runLoads (env :: rest) s = (s, 0)
    unfold runLoads
    rw [load_of_loaded env s h]
    simp [ih]

theorem runLoads_cons (env : LoadOutcome) (rest : List LoadOutcome)
    (s : GLiNERModel) :
    runLoads (env :: rest) s =
      ((runLoads rest (GLiNERModel.load env s).state).1,
       (GLiNERModel.load env s).constructions +
         (runLoads rest (GLiNERModel.load env s).state).2) := rfl

theorem runLoads_count (envs : List LoadOutcome) (s : GLiNERModel)
    (h : s._loaded = false) :
    (runLoads envs s).2 =
      if ((runLoads envs s).1)._loaded = true then 1 else 0 := by
  induction envs generalizing s with
  | nil => simp [runLoads, h]
  | cons env rest ih =>
    rw [runLoads_cons]
    cases env with
    | ok m =>
      have hload : GLiNERModel.load (.ok m) s =
          ⟨.ok (), { s with _model := some m, _loaded := true }, 1⟩ := by
        simp [GLiNERModel.load, h]
      rw [hload]
      rw [runLoads_of_loaded rest _ rfl]
      simp
    | importError e =>
      have hload : GLiNERModel.load (.importError e) s =
          ⟨.error importErrorMessage, s, 0⟩ := by
        simp [GLiNERModel.load, h]
      rw [hload]
      simpa using ih s h
    | loadError e =>
      have hload : GLiNERModel.load (.loadError e) s =
          ⟨.error (loadErrorMessage e), s, 0⟩ := by
        simp [GLiNERModel.load, h]
      rw [hload]
      simpa using ih s h

theorem extract_ok_entities (env : LoadOutcome) (t : String)
    (tys : List String) (th : Rat) (s : GLiNERModel) (l : List Entity)
    (h : (GLiNERModel.extract_entities env t tys th s).result = .ok l) :
    ∃ raws : List RawEntity, l = raws.map convertEntity := by
  unfold GLiNERModel.extract_entities at h
  rw [afterLoad_eq] at h
  rcases hL : GLiNERModel.load env s with ⟨res, st, c⟩
  rw [hL] at h
  cases res with
  | error e => simp at h
  | ok u =>
    cases u
    dsimp only at h
    rcases hm : st._model with _ | m
    · rw [hm] at h; simp at h
    · rw [hm] at h
      dsimp only at h
      rcases hp : m.predict_entities t tys th with e | raws
      · rw [hp] at h; simp at h
      · rw [hp] at h
        simp at h
        exact ⟨raws, h.symm⟩

theorem string_length_eq_zero (s : String) : s.length = 0 ↔ s = "" := by
  constructor
  · intro h
    cases s with
    | mk data =>
      have hd : data = [] := List.length_eq_zero.mp h
      subst hd
      rfl
  · intro h
    subst h
    rfl

/-- C1: once a handle's initialization has succeeded (`_loaded = true`),
every subsequent `load` call returns immediately with the state untouched
and performs no construction of the underlying resource; across any
sequence of `load` calls on a fresh handle that ends with the handle
loaded (i.e. that contains a successful initialization), the underlying
resource is constructed exactly once. -/
theorem load_construct_once :
    (∀ (env : LoadOutcome) (s : GLiNERModel), s._loaded = true →
      GLiNERModel.load env s = ⟨.ok (), s, 0⟩) ∧
    (∀ (envs : List LoadOutcome) (name : String),
      ((runLoads envs (GLiNERModel.init name)).1)._loaded = true →
      (runLoads envs (GLiNERModel.init name)).2 = 1) := by
  refine ⟨load_of_loaded, ?_⟩
  intro envs name h
  rw [runLoads_count envs _ rfl, if_pos h]

theorem load_construct_once_witness :
    GLiNERModel.load (.importError "e") sLoaded = ⟨.ok (), sLoaded, 0⟩ ∧
    (runLoads [LoadOutcome.importError "e", LoadOutcome.ok demoModel,
      LoadOutcome.ok demoModel] (GLiNERModel.init "m")).2 = 1 :=
  ⟨load_construct_once.1 (.importError "e") sLoaded rfl,
   load_construct_once.2 [LoadOutcome.importError "e", LoadOutcome.ok demoModel,
     LoadOutcome.ok demoModel] "m" rfl⟩

theorem load_state_inv (env : LoadOutcome) (s : GLiNERModel)
    (h : s._loaded = true ↔ s._model.isSome = true) :
    (((GLiNERModel.load env s).state)._loaded = true ↔
      ((GLiNERModel.load env s).state)._model.isSome = true) := by
  by_cases hl : s._loaded = true
  · rw [load_of_loaded env s hl]; exact h
  · have hl' : s._loaded = false := by simpa using hl
    cases env with
    | ok m =>
      have : GLiNERModel.load (.ok m) s =
          ⟨.ok (), { s with _model := some m, _loaded := true }, 1⟩ := by
        simp [GLiNERModel.load, hl']
      rw [this]; simp
    | importError e =>
      have : GLiNERModel.load (.importError e) s =
          ⟨.error importErrorMessage, s, 0⟩ := by
        simp [GLiNERModel.load, hl']
      rw [this]; exact h
    | loadError e =>
      have : GLiNERModel.load (.loadError e) s =
          ⟨.error (loadErrorMessage e), s, 0⟩ := by
        simp [GLiNERModel.load, hl']
      rw [this]; exact h

theorem applyOp_inv (op : Op) (s : GLiNERModel)
    (h : s._loaded = true ↔ s._model.isSome = true) :
    (((applyOp op s).1)._loaded = true ↔
      ((applyOp op s).1)._model.isSome = true) := by
  cases op with
  | load env => exact load_state_inv env s h
  | extract env t tys th =>
    show ((GLiNERModel.extract_entities env t tys th s).state)._loaded = true ↔
      ((GLiNERModel.extract_entities env t tys th s).state)._model.isSome = true
    rw [(extract_entities_state env t tys th s).1]
    exact load_state_inv env s h
  | isLoaded => exact h
  | modelInfo => exact h

/-- C2: in every state reachable from a freshly constructed handle by
wrapper operations, the readiness flag `_loaded` is true exactly when the
underlying resource reference `_model` is present (which the code only
makes so when a construction completed without raising). -/
theorem loaded_iff_model_present (s : GLiNERModel) (h : Reachable s) :
    s._loaded = true ↔ s._model.isSome = true := by
  induction h with
  | init name => simp [GLiNERModel.init]
  | step s' op hs ih => exact applyOp_inv op s' ih

theorem loaded_iff_model_present_witness :
    (((applyOp (Op.load (LoadOutcome.ok demoModel)) (GLiNERModel.init "m")).1)._loaded = true ↔
      ((applyOp (Op.load (LoadOutcome.ok demoModel)) (GLiNERModel.init "m")).1)._model.isSome = true) :=
  loaded_iff_model_present _ (Reachable.step _ _ (Reachable.init "m"))

/-- C3: the readiness flag is false on a fresh handle, `is_loaded` returns
exactly that flag, the flag stays false as long as no operation carries a
successful construction outcome, a successful `load` sets it to true, and
once true it stays true under every further sequence of operations. -/
theorem is_loaded_monotone :
    (∀ name : String, (GLiNERModel.init name)._loaded = false) ∧
    (∀ s : GLiNERModel, GLiNERModel.is_loaded s = s._loaded) ∧
    (∀ (ops : List Op) (name : String), (∀ op ∈ ops, opCanInit op = false) →
      (runOps ops (GLiNERModel.init name))._loaded = false) ∧
    (∀ (m : Model) (s : GLiNERModel),
      ((GLiNERModel.load (.ok m) s).state)._loaded = true) ∧
    (∀ (ops : List Op) (s : GLiNERModel), s._loaded = true →
      (runOps ops s)._loaded = true) := by
  refine ⟨fun name => rfl, fun s => rfl, ?_, ?_, ?_⟩
  · intro ops name hops
    exact runOps_cannot_init ops _ hops rfl
  · intro m s
    by_cases h : s._loaded = true
    · rw [load_of_loaded _ s h]; exact h
    · have h' : s._loaded = false := by simpa using h
      simp [GLiNERModel.load, h']
  · intro ops s h
    exact runOps_loaded_mono ops s h

theorem is_loaded_monotone_witness :
    (GLiNERModel.init "m")._loaded = false ∧
    GLiNERModel.is_loaded sLoaded = sLoaded._loaded ∧
    (runOps [Op.isLoaded, Op.load (LoadOutcome.importError "e")]
      (GLiNERModel.init "m"))._loaded = false ∧
    ((GLiNERModel.load (.ok demoModel) (GLiNERModel.init "m")).state)._loaded = true ∧
    (runOps [Op.modelInfo] sLoaded)._loaded = true := by
  refine ⟨is_loaded_monotone.1 "m", is_loaded_monotone.2.1 sLoaded,
    is_loaded_monotone.2.2.1 _ "m" ?_, is_loaded_monotone.2.2.2.1 demoModel _,
    is_loaded_monotone.2.2.2.2 [Op.modelInfo] sLoaded rfl⟩
  intro op hop
  cases hop with
  | head => rfl
  | tail _ h2 =>
    cases h2 with
    | head => rfl
    | tail _ h3 => cases h3

/-- C4: on an uninitialized handle, a failing `load` raises a
`RuntimeError` whose message carries the cause, and leaves every attribute
unchanged (flag still false, no resource reference); a later `load` call
with a working construction outcome succeeds and initializes the
handle. -/
theorem load_failure_resets (s : GLiNERModel) (e : String)
    (h1 : s._loaded = false) (h2 : s._model = none) :
    GLiNERModel.load (.loadError e) s = ⟨.error (loadErrorMessage e), s, 0⟩ ∧
    GLiNERModel.load (.importError e) s = ⟨.error importErrorMessage, s, 0⟩ ∧
    (∃ pre, loadErrorMessage e = pre ++ e) ∧
    (((GLiNERModel.load (.loadError e) s).state)._loaded = false ∧
      ((GLiNERModel.load (.loadError e) s).state)._model = none) ∧
    (∀ m : Model, (GLiNERModel.load (.ok m) s).result = .ok () ∧
      ((GLiNERModel.load (.ok m) s).state)._loaded = true ∧
      ((GLiNERModel.load (.ok m) s).state)._model = some m) := by
  have hLoadErr : GLiNERModel.load (.loadError e) s =
      ⟨.error (loadErrorMessage e), s, 0⟩ := by
    simp [GLiNERModel.load, h1]
  have hImpErr : GLiNERModel.load (.importError e) s =
      ⟨.error importErrorMessage, s, 0⟩ := by
    simp [GLiNERModel.load, h1]
  refine ⟨hLoadErr, hImpErr, ⟨"Failed to load GLiNER2 model: ", rfl⟩, ?_, ?_⟩
  · rw [hLoadErr]; exact ⟨h1, h2⟩
  · intro m
    have hOk : GLiNERModel.load (.ok m) s =
        ⟨.ok (), { s with _model := some m, _loaded := true }, 1⟩ := by
      simp [GLiNERModel.load, h1]
    rw [hOk]; exact ⟨rfl, rfl, rfl⟩

theorem load_failure_resets_witness :
    GLiNERModel.load (.loadError "disk") (GLiNERModel.init "m") =
      ⟨.error (loadErrorMessage "disk"), GLiNERModel.init "m", 0⟩ ∧
    ((GLiNERModel.load (.loadError "disk") (GLiNERModel.init "m")).state)._loaded = false ∧
    (GLiNERModel.load (.ok demoModel) (GLiNERModel.init "m")).result = .ok () ∧
    ((GLiNERModel.load (.ok demoModel) (GLiNERModel.init "m")).state)._model = some demoModel := by
  have h := load_failure_resets (GLiNERModel.init "m") "disk" rfl rfl
  exact ⟨h.1, h.2.2.2.1.1, (h.2.2.2.2 demoModel).1, (h.2.2.2.2 demoModel).2.2⟩

/-- C5: `is_loaded` returns exactly the current readiness flag, and as an
operation it leaves the handle state unchanged and performs no
construction of the underlying resource. -/
theorem is_loaded_no_side_effects :
    ∀ s : GLiNERModel, GLiNERModel.is_loaded s = s._loaded ∧
      applyOp Op.isLoaded s = (s, 0) :=
  fun _ => ⟨rfl, rfl⟩

/-- C6: validation of a `POST /extract` body fails with HTTP 422 exactly
when the text is empty, the entity-type list is empty, or the threshold
lies outside `[0, 1]`; a body with non-empty text, a non-empty entity-type
list and a threshold within `[0, 1]` passes validation unchanged. -/
theorem extract_request_validation (r : ExtractRequest) :
    (validateExtractRequest r = .error ⟨422, "ValidationError"⟩ ↔
      (r.text = "" ∨ r.entity_types = [] ∨ r.threshold < 0 ∨ 1 < r.threshold)) ∧
    (validateExtractRequest r = .ok r ↔
      (r.text ≠ "" ∧ r.entity_types ≠ [] ∧ 0 ≤ r.threshold ∧ r.threshold ≤ 1)) := by
  have hval : validExtractRequest r = true ↔
      (r.text ≠ "" ∧ r.entity_types ≠ [] ∧ 0 ≤ r.threshold ∧ r.threshold ≤ 1) := by
    unfold validExtractRequest
    rw [Bool.and_eq_true, Bool.and_eq_true, Bool.and_eq_true]
    simp only [decide_eq_true_eq]
    constructor
    · rintro ⟨⟨⟨ha, hb⟩, hc⟩, hd⟩
      refine ⟨?_, ?_, hc, hd⟩
      · intro he
        rw [(string_length_eq_zero r.text).mpr he] at ha
        omega
      · intro he
        rw [he] at hb
        simp at hb
    · rintro ⟨ha, hb, hc, hd⟩
      refine ⟨⟨⟨?_, ?_⟩, hc⟩, hd⟩
      · have hz : r.text.length ≠ 0 := fun h => ha ((string_length_eq_zero r.text).mp h)
        omega
      · have hz : r.entity_types.length ≠ 0 := fun h => hb (List.length_eq_zero.mp h)
        omega
  by_cases hv : validExtractRequest r = true
  · have hvr : validateExtractRequest r = .ok r := by
      unfold validateExtractRequest
      rw [hv]
      rfl
    have hconj := hval.mp hv
    refine ⟨⟨fun h => absurd h (by simp [hvr]), fun hd => ?_⟩,
      ⟨fun _ => hconj, fun _ => hvr⟩⟩
    rcases hd with h | h | h | h
    · exact absurd h hconj.1
    · exact absurd h hconj.2.1
    · exact absurd hconj.2.2.1 (not_le.mpr h)
    · exact absurd hconj.2.2.2 (not_le.mpr h)
  · have hv' : validExtractRequest r = false := by simpa using hv
    have hvr : validateExtractRequest r = .error ⟨422, "ValidationError"⟩ := by
      unfold validateExtractRequest
      rw [hv']
      rfl
    have hdisj : r.text = "" ∨ r.entity_types = [] ∨ r.threshold < 0 ∨
        1 < r.threshold := by
      by_cases h1 : r.text = ""
      · exact Or.inl h1
      by_cases h2 : r.entity_types = []
      · exact Or.inr (Or.inl h2)
      by_cases h3 : r.threshold < 0
      · exact Or.inr (Or.inr (Or.inl h3))
      by_cases h4 : 1 < r.threshold
      · exact Or.inr (Or.inr (Or.inr h4))
      exact absurd (hval.mpr ⟨h1, h2, not_lt.mp h3, not_lt.mp h4⟩) hv
    refine ⟨⟨fun _ => hdisj, fun _ => hvr⟩, ?_⟩
    constructor
    · intro h
      exact absurd h (by simp [hvr])
    · intro hc
      exact absurd (hval.mpr hc) hv

/-- C7: every successful `POST /extract` response has `entity_count` equal
to the length of its `entities` array and `text_length` equal to the
length of the request text, and every returned entity consists of exactly
the five fields `text`, `label`, `start`, `end`, `score` (it is the image
of a raw entity under the conversion that keeps exactly those fields). -/
theorem extract_response_consistent (env : LoadOutcome) (req : ExtractRequest)
    (s : GLiNERModel) (resp : ExtractResponse) (s2 : GLiNERModel)
    (h : extractEndpoint env req s = (.ok resp, s2)) :
    resp.entity_count = resp.entities.length ∧
    resp.text_length = req.text.length ∧
    (∀ en ∈ resp.entities,
      en = Entity.mk en.text en.label en.start en.«end» en.score) ∧
    (∃ raws : List RawEntity, resp.entities = raws.map convertEntity) := by
  unfold extractEndpoint at h
  rcases hE : GLiNERModel.extract_entities env req.text req.entity_types
      req.threshold s with ⟨res, st, c⟩
  rw [hE] at h
  cases res with
  | error e => simp at h
  | ok ents =>
    dsimp only at h
    simp only [Prod.mk.injEq, Except.ok.injEq] at h
    obtain ⟨h1, h2⟩ := h
    subst h1
    refine ⟨rfl, rfl, fun en _ => rfl, ?_⟩
    have : (GLiNERModel.extract_entities env req.text req.entity_types
        req.threshold s).result = .ok ents := by rw [hE]
    exact extract_ok_entities env req.text req.entity_types req.threshold s
      ents this

theorem extract_response_consistent_witness :
    (1 = [convertEntity demoRaw].length) ∧ (9 = reqA.text.length) := by
  have h := extract_response_consistent (LoadOutcome.importError "e") reqA
    sReady ⟨[convertEntity demoRaw], 1, 9⟩ sReady rfl
  exact ⟨h.1, h.2.1⟩

/-- C8 counterexample: the result of `model_info` is not independent of
readiness, because it contains a `loaded` field equal to the readiness
flag: on the default handle it differs before and after a successful
load. -/
theorem model_info_depends_on_readiness :
    GLiNERModel.model_info ((GLiNERModel.load (.ok demoModel)
      (GLiNERModel.init "fastino/gliner2-large-v1")).state) ≠
    GLiNERModel.model_info (GLiNERModel.init "fastino/gliner2-large-v1") := by
  intro h
  have hl := congrArg ModelInfo.loaded h
  simp [GLiNERModel.model_info, GLiNERModel.load, GLiNERModel.init] at hl

/-- C8 (amended): the static fields of `model_info` — `model_name`,
`model_type`, `parameters`, `license` — are unchanged by any `load` call,
so they agree before initialization and after a successful one; the
returned record additionally contains a `loaded` field that equals the
current readiness flag, so the full result is not independent of
readiness. -/
theorem model_info_static_fields (env : LoadOutcome) (s : GLiNERModel) :
    ((GLiNERModel.load env s).state.model_info).model_name =
      (s.model_info).model_name ∧
    ((GLiNERModel.load env s).state.model_info).model_type =
      (s.model_info).model_type ∧
    ((GLiNERModel.load env s).state.model_info).parameters =
      (s.model_info).parameters ∧
    ((GLiNERModel.load env s).state.model_info).license =
      (s.model_info).license ∧
    (s.model_info).loaded = s._loaded := by
  refine ⟨?_, rfl, rfl, rfl, rfl⟩
  show ((GLiNERModel.load env s).state).model_name = s.model_name
  exact load_state_model_name env s

theorem extract_loaded_predict_error (env : LoadOutcome) (t : String)
    (tys : List String) (th : Rat) (s : GLiNERModel) (m : Model) (e : String)
    (hl : s._loaded = true) (hm : s._model = some m)
    (hp : m.predict_entities t tys th = .error e) :
    GLiNERModel.extract_entities env t tys th s = ⟨.error e, s, 0⟩ := by
  unfold GLiNERModel.extract_entities
  rw [afterLoad_eq, load_of_loaded env s hl]
  dsimp only
  rw [hm]
  dsimp only
  rw [hp]

/-- C9 counterexample: the HTTP 500 detail produced when extraction fails
is `"Extraction failed: " ++ cause` and does not depend on the request at
all: two different requests produce the identical message, so the message
cannot include a summary of the triggering input. -/
theorem extract_error_ignores_input :
    reqA ≠ reqB ∧
    (extractEndpoint (.importError "e") reqA sFail).1 =
      .error ⟨500, "Extraction failed: boom"⟩ ∧
    (extractEndpoint (.importError "e") reqB sFail).1 =
      .error ⟨500, "Extraction failed: boom"⟩ := by
  refine ⟨?_, rfl, rfl⟩
  intro h
  have ht := congrArg ExtractRequest.text h
  simp [reqA, reqB] at ht

/-- C9 (amended): when the underlying model's `predict_entities` raises on
a loaded handle, the endpoint answers HTTP 500 with detail
`"Extraction failed: " ++ cause`, which includes the underlying cause (as
a suffix) but no summary of the triggering input; the handle state is
returned unchanged. -/
theorem extract_error_includes_cause (env : LoadOutcome)
    (req : ExtractRequest) (s : GLiNERModel) (m : Model) (e : String)
    (hl : s._loaded = true) (hm : s._model = some m)
    (hp : m.predict_entities req.text req.entity_types req.threshold =
      .error e) :
    extractEndpoint env req s =
      (.error ⟨500, "Extraction failed: " ++ e⟩, s) ∧
    (∃ pre, "Extraction failed: " ++ e = pre ++ e) := by
  constructor
  · unfold extractEndpoint
    rw [extract_loaded_predict_error env req.text req.entity_types
      req.threshold s m e hl hm hp]
  · exact ⟨"Extraction failed: ", rfl⟩

theorem extract_error_includes_cause_witness :
    extractEndpoint (LoadOutcome.importError "e") reqA sFail =
      (.error ⟨500, "Extraction failed: " ++ "boom"⟩, sFail) :=
  (extract_error_includes_cause (LoadOutcome.importError "e") reqA sFail
    failModel "boom" rfl rfl rfl).1

/-- C10: a failing `extract_entities` call on a handle that is already
loaded leaves the handle state unchanged: the readiness flag stays true
and the resource reference is untouched. -/
theorem extract_failure_preserves_ready (env : LoadOutcome) (t : String)
    (tys : List String) (th : Rat) (s : GLiNERModel) (e : String)
    (hl : s._loaded = true)
    (_hf : (GLiNERModel.extract_entities env t tys th s).result = .error e) :
    (GLiNERModel.extract_entities env t tys th s).state = s ∧
    ((GLiNERModel.extract_entities env t tys th s).state)._loaded = true ∧
    ((GLiNERModel.extract_entities env t tys th s).state)._model = s._model := by
  have hs : (GLiNERModel.extract_entities env t tys th s).state = s := by
    rw [(extract_entities_state env t tys th s).1, load_of_loaded env s hl]
  exact ⟨hs, by rw [hs]; exact hl, by rw [hs]⟩

theorem extract_failure_preserves_ready_witness :
    (GLiNERModel.extract_entities (.importError "e") "Acme Corp" ["org"]
      (3 / 10) sFail).state = sFail ∧
    ((GLiNERModel.extract_entities (.importError "e") "Acme Corp" ["org"]
      (3 / 10) sFail).state)._loaded = true ∧
    ((GLiNERModel.extract_entities (.importError "e") "Acme Corp" ["org"]
      (3 / 10) sFail).state)._model = sFail._model :=
  extract_failure_preserves_ready (.importError "e") "Acme Corp" ["org"]
    (3 / 10) sFail "boom" rfl rfl

end PedanticRaven
